import Mathlib

/-!
Verification development for a Telegram "AI radio DJ" bot
(modules: radio.py, quiz_service.py, handlers.py, youtube.py).

The Python sources are shallowly embedded: pure string helpers become Lean
functions on `List Char`; the stateful radio/quiz machinery becomes explicit
state-passing functions whose nondeterminism (wall-clock time, random picks,
network and Telegram outcomes) is supplied by explicit environment records.
Asyncio critical sections guarded by a per-chat lock are modelled as atomic
Lean functions. The file system is an association list from path to size in
bytes.
-/

namespace OldBot

/- ---------------------------------------------------------------------
   Python string primitives used by quiz_service.py and handlers.py.

   `pyLower` models `str.lower()` restricted to the alphabets that occur in
   this program's data (ASCII and Russian Cyrillic); `pyIsAlnum` models
   `str.isalnum` on the same alphabets plus ASCII digits; `pyStrip` models
   `str.strip()` for the standard ASCII whitespace characters.
   --------------------------------------------------------------------- -/

def pyLowerChar (c : Char) : Char :=
  if 'A' ≤ c ∧ c ≤ 'Z' then Char.ofNat (c.toNat + 32)
  else if 'А' ≤ c ∧ c ≤ 'Я' then Char.ofNat (c.toNat + 32)
  else if c = 'Ё' then 'ё'
  else c

def pyLower (s : List Char) : List Char := s.map pyLowerChar

def pyIsAlnum (c : Char) : Bool :=
  ('a' ≤ c ∧ c ≤ 'z') ∨ ('A' ≤ c ∧ c ≤ 'Z') ∨ ('0' ≤ c ∧ c ≤ '9')
    ∨ ('а' ≤ c ∧ c ≤ 'я') ∨ ('А' ≤ c ∧ c ≤ 'Я') ∨ c = 'ё' ∨ c = 'Ё'

def pyIsSpace (c : Char) : Bool :=
  c = ' ' ∨ c = '\t' ∨ c = '\n' ∨ c = '\r' ∨ c = '\x0b' ∨ c = '\x0c'

def pyStrip (s : List Char) : List Char :=
  ((s.dropWhile pyIsSpace).reverse.dropWhile pyIsSpace).reverse

/-- Python `needle in hay` for strings: contiguous substring containment
(the empty needle is contained in everything, as in Python). -/
def strStarts : List Char → List Char → Bool
  | [], _ => true
  | _ :: _, [] => false
  | a :: as, b :: bs => a = b && strStarts as bs

def isSubstr (needle hay : List Char) : Bool :=
  strStarts needle hay ||
    match hay with
    | [] => false
    | _ :: t => isSubstr needle t

/-- Python `str.split()` with no argument: split on whitespace runs,
dropping empty pieces. -/
def splitWS (s : List Char) : List (List Char) :=
  let rec go : List Char → List Char → List (List Char)
    | [], acc => if acc.isEmpty then [] else [acc.reverse]
    | c :: rest, acc =>
        if pyIsSpace c then
          if acc.isEmpty then go rest [] else acc.reverse :: go rest []
        else go rest (c :: acc)
  go s []

/- ---------------------------------------------------------------------
   quiz_service.py line 18:  re.sub(r'\(.*?\)|\[.*?\]', '', t)

   The regex removes, scanning left to right, each non-greedy parenthesised
   or bracketed segment; `.` does not match a newline, so a segment whose
   closer appears only after a newline is not matched.
   --------------------------------------------------------------------- -/

/-- Distance to the nearest closing character, not crossing a newline. -/
def findClose (close : Char) : List Char → Option Nat
  | [] => none
  | c :: rest =>
      if c = close then some 0
      else if c = '\n' then none
      else (findClose close rest).map (· + 1)

/-- One left-to-right scan of the subject; every step consumes at least one
character, so the fuel `s.length + 1` is never exhausted and the function
agrees with the unfueled recursion (fuel keeps the recursion structural). -/
def subAnnotGo : Nat → List Char → List Char
  | 0, _ => []
  | _, [] => []
  | fuel + 1, c :: rest =>
      if c = '(' then
        match findClose ')' rest with
        | some k => subAnnotGo fuel (rest.drop (k + 1))
        | none => c :: subAnnotGo fuel rest
      else if c = '[' then
        match findClose ']' rest with
        | some k => subAnnotGo fuel (rest.drop (k + 1))
        | none => c :: subAnnotGo fuel rest
      else c :: subAnnotGo fuel rest

def subAnnot (s : List Char) : List Char := subAnnotGo (s.length + 1) s

/- ---------------------------------------------------------------------
   difflib.SequenceMatcher(None, a, b).ratio(), embedded for the regime this
   program exercises: `b` is a single cleaned word far shorter than 200
   characters, so Python's autojunk heuristic never marks any character as
   junk and the junk-extension phases of `find_longest_match` are no-ops.
   --------------------------------------------------------------------- -/

/-- Ascending positions of `c` in `b` restricted to `[blo, bhi)`; models the
`b2j` table walk in `difflib.SequenceMatcher.find_longest_match`. -/
def bPositions (c : Char) (b : List Char) (blo bhi : Nat) : List Nat :=
  (List.range b.length).filter (fun j => b.get? j = some c ∧ blo ≤ j ∧ j < bhi)

def lookupD (m : List (Nat × Nat)) (k : Nat) : Nat :=
  ((m.find? (fun e => e.1 = k)).map (fun e => e.2)).getD 0

structure LMState where
  besti : Nat
  bestj : Nat
  bestsize : Nat
  j2len : List (Nat × Nat)

/-- `find_longest_match(alo, ahi, blo, bhi)` of difflib with an empty junk
set: returns `(besti, bestj, bestsize)` with the same tie-breaking as the
CPython implementation (strict improvement only, rows scanned in ascending
`i`, positions in ascending `j`). -/
def findLongestMatch (a b : List Char) (alo ahi blo bhi : Nat) :
    Nat × Nat × Nat :=
  let final := (List.range' alo (ahi - alo)).foldl
    (fun (st : LMState) i =>
      let js := match a.get? i with
        | some c => bPositions c b blo bhi
        | none => []
      let step := js.foldl
        (fun (acc : List (Nat × Nat) × Nat × Nat × Nat) j =>
          let k := (if j = 0 then 0 else lookupD st.j2len (j - 1)) + 1
          let nm := (j, k) :: acc.1
          if k > acc.2.2.2 then (nm, i + 1 - k, j + 1 - k, k)
          else (nm, acc.2.1, acc.2.2.1, acc.2.2.2))
        ([], st.besti, st.bestj, st.bestsize)
      ⟨step.2.1, step.2.2.1, step.2.2.2, step.1⟩)
    ⟨alo, blo, 0, []⟩
  (final.besti, final.bestj, final.bestsize)

/-- Total size `M` of the matching blocks of `difflib.SequenceMatcher`
(recursive divide at the longest match).  The fuel argument strictly exceeds
the possible recursion depth, so the function agrees with the unfueled
recursion on every input. -/
def matchBlocksSize (a b : List Char) : Nat :=
  go (a.length + b.length + 1) 0 a.length 0 b.length
where
  go : Nat → Nat → Nat → Nat → Nat → Nat
    | 0, _, _, _, _ => 0
    | fuel + 1, alo, ahi, blo, bhi =>
        let r := findLongestMatch a b alo ahi blo bhi
        if r.2.2 = 0 then 0
        else
          go fuel alo r.1 blo r.2.1 + r.2.2 +
            go fuel (r.1 + r.2.2) ahi (r.2.1 + r.2.2) bhi

/-- `SequenceMatcher(None, a, b).ratio() > 0.75`, i.e. `2*M/T > 3/4`,
i.e. `8*M > 3*T`, computed exactly over the naturals. -/
def simAboveThreshold (a b : List Char) : Bool :=
  8 * matchBlocksSize a b > 3 * (a.length + b.length)

/- ---------------------------------------------------------------------
   quiz_service.py lines 13-33: is_fuzzy_match(user_input, target).
   --------------------------------------------------------------------- -/

def isFuzzyMatch (user_input target : String) : Bool :=
  -- `if not user_input or not target: return False` (Python str truthiness)
  if user_input.isEmpty || target.isEmpty then false
  else
    let u := pyStrip (pyLower user_input.toList)
    let t := pyLower target.toList
    let tc := pyStrip (subAnnot t)
    let t_clean := if tc.isEmpty then t else tc
    if isSubstr u t_clean || isSubstr t_clean u then true
    else
      (splitWS t_clean).any (fun w =>
        let w_c := w.filter pyIsAlnum
        if w_c.length ≥ 3 then
          isSubstr u w_c || isSubstr w_c u || simAboveThreshold u w_c
        else false)

/- ---------------------------------------------------------------------
   handlers.py: clean_str (lines 33-35) and the text_handler routing
   decision (lines 140-188).

   The Telegram plumbing (bot sends, regex URL extraction, the AI intent
   classifier) is external: the routing function receives the classifier's
   answer as an environment input and returns which action the handler takes.
   --------------------------------------------------------------------- -/

def cleanStr (s : String) : List Char :=
  (pyLower s.toList).filter pyIsAlnum

/-- The quiz fields text_handler reads from `context.chat_data`. -/
structure ChatData where
  quiz_active : Bool
  quiz_artist : String
  quiz_title : String
  quiz_full : String
  deriving DecidableEq

/-- handlers.py lines 148-155: an active-quiz message matches when its
cleaned text has length ≥ 4 and contains the cleaned title or the cleaned
artist, each itself nonempty of length ≥ 4. -/
def quizAnswerMatches (cd : ChatData) (msg : String) : Bool :=
  let mc := cleanStr msg
  let tc := cleanStr cd.quiz_title
  let ac := cleanStr cd.quiz_artist
  mc.length ≥ 4 ∧
    ((¬tc.isEmpty ∧ tc.length ≥ 4 ∧ isSubstr tc mc) ∨
     (¬ac.isEmpty ∧ ac.length ≥ 4 ∧ isSubstr ac mc))

inductive RouteAction where
  | noMessage
  | quizWin
  | spotifyConsumed
  | chatReplyDirect
  | playSearch (q : String) (dedication : Option String)
  | radioStart (q : String)
  | chatReplyIntent
  | noAction
  deriving DecidableEq

/-- First-occurrence split at the pipe character, `q.split("|", 1)`. -/
def splitPipe : List Char → Option (List Char × List Char)
  | [] => none
  | c :: rest =>
      if c = '|' then some ([], rest)
      else (splitPipe rest).map (fun p => (c :: p.1, p.2))

/-- handlers.py lines 165-188 after the quiz branch: Spotify-URL check (the
whole branch returns whether or not the URL regex extracts), direct-address
check (private chat, reply to the bot, or a wake word), then dispatch on the
classifier's `{intent, query}`. -/
def normalRoute (msg : String) (isPrivate isReplyToBot : Bool)
    (intent query : Option String) : RouteAction :=
  if isSubstr "open.spotify.com/track".toList msg.toList then .spotifyConsumed
  else
    let lower := pyLower msg.toList
    let isMention := ["аврора", "aurora", "бот", "dj"].any
      (fun m => isSubstr m.toList lower)
    if isPrivate || isReplyToBot || isMention then .chatReplyDirect
    else
      match intent with
      | some i =>
          if i = "search" then
            match query with
            | some q =>
                if q = "" then .noAction
                else
                  match splitPipe q.toList with
                  | some (a, b) =>
                      .playSearch (String.mk (pyStrip a))
                        (some (String.mk (pyStrip b)))
                  | none => .playSearch q none
            | none => .noAction
          else if i = "radio" then
            match query with
            | some q => if q = "" then .noAction else .radioStart q
            | none => .noAction
          else if i = "chat" then .chatReplyIntent
          else .noAction
      | none => .noAction

/-- handlers.py lines 140-188: the full text_handler routing decision,
including the active-quiz branch.  A matching answer is consumed
(`quizWin`, quiz deactivated); a non-matching message falls through to
`normalRoute`. -/
def textRoute (cd : ChatData) (msgText : Option String)
    (isPrivate isReplyToBot : Bool) (intent query : Option String) :
    RouteAction × ChatData :=
  match msgText with
  | none => (.noMessage, cd)
  | some msg =>
      if msg = "" then (.noMessage, cd)
      else if cd.quiz_active ∧ quizAnswerMatches cd msg then
        (.quizWin, { cd with quiz_active := false })
      else (normalRoute msg isPrivate isReplyToBot intent query, cd)

/- ---------------------------------------------------------------------
   File system: an association list from path to size in bytes.  `unlink`
   removes every entry for the path; `fsSet` overwrites.
   --------------------------------------------------------------------- -/

def FS : Type := List (String × Nat)

def fsHas (fs : FS) (p : String) : Bool := fs.any (fun e => e.1 == p)

def fsSize (fs : FS) (p : String) : Nat :=
  ((fs.find? (fun e => e.1 == p)).map (fun e => e.2)).getD 0

def fsUnlink (fs : FS) (p : String) : FS := fs.filter (fun e => !(e.1 == p))

def fsSet (fs : FS) (p : String) (n : Nat) : FS := (p, n) :: fsUnlink fs p

/- ---------------------------------------------------------------------
   Modelled from the spec: models.py (Track/TrackInfo, DownloadResult) is
   imported by radio.py and quiz_service.py but is not under src/.  Fields
   follow §3 of the spec: a Track has an opaque identifier, title,
   artist/uploader and a duration in seconds (0 = unknown); a DownloadResult
   has `success`, a local `file_path` XOR a remote `is_url`, and the
   `track_info` it was downloaded for.
   --------------------------------------------------------------------- -/

structure TrackInfo where
  identifier : String
  title : String
  artist : String
  duration : Nat
  deriving DecidableEq

def defaultTrack : TrackInfo := ⟨"", "", "", 0⟩

instance : Inhabited TrackInfo := ⟨defaultTrack⟩

structure DownloadResult where
  success : Bool
  file_path : Option String
  is_url : Bool
  track_info : Option TrackInfo
  deriving DecidableEq

/-- Python truthiness of an optional path string (`None` and `""` falsy). -/
def pathTruthy : Option String → Bool
  | some p => !(p == "")
  | none => false

/- ---------------------------------------------------------------------
   radio.py lines 264-271: artifact validation in the radio loop.

   A result is valid when it succeeded and is a remote URL, or the file-id
   cache holds an entry for the track, or the file exists locally with size
   at most 20 MiB (`st_size/(1024*1024) <= 20.0`, which over IEEE doubles is
   exactly `st_size <= 20971520`).  An oversized file is unlinked.
   --------------------------------------------------------------------- -/

def validateArtifact (result : DownloadResult) (cacheHit : Bool) (fs : FS) :
    Bool × FS :=
  if result.success then
    if result.is_url || cacheHit then (true, fs)
    else
      match result.file_path with
      | some p =>
          if p ≠ "" ∧ fsHas fs p then
            if fsSize fs p ≤ 20971520 then (true, fs)
            else (false, fsUnlink fs p)
          else (false, fs)
      | none => (false, fs)
  else (false, fs)

/- ---------------------------------------------------------------------
   RadioSession state (radio.py lines 55-98).  The asyncio task handle is
   modelled by `has_task`/`task_cancelled`; `skip_event` is the event's
   set-flag; `status_message` is the id of the outstanding status message.
   The persona mode lives in the external ChatManager and is not part of
   this state.
   --------------------------------------------------------------------- -/

structure SessionState where
  chat_id : Int
  query : String
  display_name : String
  decade : Option String
  is_running : Bool
  has_task : Bool
  task_cancelled : Bool
  quiz_active : Bool
  quiz_artist : String
  quiz_title : String
  quiz_full : String
  last_quiz_time : Nat
  last_genre_change : Nat
  playlist : List TrackInfo
  played_ids : List String
  skip_event : Bool
  status_message : Option Nat
  deriving DecidableEq

def deleteStatus (st : SessionState) : SessionState :=
  { st with status_message := none }

/-- radio.py lines 100-102: on a Forbidden error the session stops itself
and releases any waiter. -/
def handleForbidden (st : SessionState) : SessionState :=
  { st with is_running := false, skip_event := true }

/-- radio.py lines 104-113 on the success path: while running, the status
message is edited or (re)sent, so one exists afterward.  Telegram failures
of the status update are not load-bearing for any claim and are not
modelled. -/
def updateStatus (st : SessionState) : SessionState :=
  if st.is_running then { st with status_message := some 0 } else st

/- ---------------------------------------------------------------------
   radio.py lines 317-364: RadioSession._send_track.

   Environment: the outcome of each Telegram send the code can attempt, and
   the file-id cache lookup.  A Forbidden from the cached-file-id send is
   caught by the inner `except Exception` (falling through to the file
   send); a Forbidden from the URL or file send reaches the outer handler
   and stops the session.  The `finally` block unlinks the local artifact.
   --------------------------------------------------------------------- -/

inductive SendAttempt where
  | ok
  | forbidden
  | fails
  deriving DecidableEq

structure SendEnv where
  urlSend : SendAttempt
  cachedFileId : Option String
  cachedSend : SendAttempt
  fileSend : SendAttempt
  deriving DecidableEq

def sendTrack (st : SessionState) (fs : FS) (result : DownloadResult)
    (env : SendEnv) : Bool × SessionState × FS :=
  let fileBranch : Bool × SessionState :=
    match result.file_path with
    | some p =>
        if p ≠ "" ∧ fsHas fs p then
          match env.fileSend with
          | .ok => (true, deleteStatus st)
          | .forbidden => (false, handleForbidden st)
          | .fails => (false, st)
        else (false, st)
    | none => (false, st)
  let body : Bool × SessionState :=
    if result.is_url then
      match env.urlSend with
      | .ok => (true, deleteStatus st)
      | .forbidden => (false, handleForbidden st)
      | .fails => (false, st)
    else
      match env.cachedFileId with
      | some _ =>
          match env.cachedSend with
          | .ok => (true, deleteStatus st)
          | _ => fileBranch
      | none => fileBranch
  let fs1 :=
    if !result.is_url ∧ pathTruthy result.file_path ∧
        fsHas fs (result.file_path.getD "") then
      fsUnlink fs (result.file_path.getD "")
    else fs
  (body.1, body.2, fs1)

/- ---------------------------------------------------------------------
   radio.py lines 121-146: RadioSession._fill_playlist.

   The environment supplies the track list returned by the first query
   variant that produced results (the variant list, its shuffling, and the
   shuffling of the results are uniform random choices folded into the
   environment).  `_is_searching` is a reentrancy guard that is always false
   at entry within the session's single task.  When no variant yields tracks
   outside `played_ids`, the played-set is trimmed to its last 10 entries
   (or cleared); `list(set)` ordering is modelled as insertion order.
   --------------------------------------------------------------------- -/

def fillPlaylist (st : SessionState) (hits : List TrackInfo) : SessionState :=
  if !st.is_running then st
  else
    let newTracks := hits.filter (fun t => !(st.played_ids.contains t.identifier))
    if !newTracks.isEmpty then { st with playlist := st.playlist ++ newTracks }
    else if st.played_ids.length > 10 then
      { st with played_ids := st.played_ids.drop (st.played_ids.length - 10) }
    else { st with played_ids := [] }

/- ---------------------------------------------------------------------
   radio.py lines 149-217: RadioSession.run_quiz (the in-session quiz used
   by the loop's half-hourly trigger).  Search never raises (youtube.py
   catches internally and returns []); ffmpeg and the Telegram sends are
   environment outcomes.  The `finally` block deletes the input and clip
   files.
   --------------------------------------------------------------------- -/

structure RadioQuizEnv where
  tracks : List TrackInfo
  pick : Nat
  dl : DownloadResult
  clipCreated : Bool
  sendVoiceRaises : Bool
  deriving DecidableEq

def radioRunQuiz (st : SessionState) (fs : FS) (env : RadioQuizEnv) :
    SessionState × FS :=
  let st0 := updateStatus { st with quiz_active := true }
  if env.tracks.isEmpty then ({ st0 with quiz_active := false }, fs)
  else
    let track := (env.tracks.take 3).getD (env.pick % min 3 env.tracks.length)
      defaultTrack
    let dl := env.dl
    if !(dl.success && pathTruthy dl.file_path) then
      ({ st0 with quiz_active := false }, fs)
    else
      let info := dl.track_info.getD defaultTrack
      let input_file := dl.file_path.getD ""
      let output_file := "downloads/quiz_" ++ track.identifier ++ ".ogg"
      let fs1 := if env.clipCreated then fsSet fs output_file 1 else fs
      let finalFS :=
        let fs2 := if !dl.is_url ∧ fsHas fs1 input_file then
            fsUnlink fs1 input_file else fs1
        if fsHas fs2 output_file then fsUnlink fs2 output_file else fs2
      let st1 := deleteStatus st0
      if !env.clipCreated ∨ env.sendVoiceRaises then
        ({ st1 with quiz_active := false }, finalFS)
      else
        let st2 := { st1 with quiz_artist := info.artist, quiz_title := info.title,
                              quiz_full := info.artist ++ " - " ++ info.title }
        ({ st2 with quiz_active := false }, finalFS)

/- ---------------------------------------------------------------------
   radio.py lines 219-315: one iteration of RadioSession._radio_loop, with
   an event trace recording what the iteration did.  Wall-clock time, the
   random catalog pick, search/download/send outcomes, and whether the
   post-send wait ended by skip or by timeout are environment inputs.
   --------------------------------------------------------------------- -/

inductive LoopEvent where
  | loopExit
  | quizPauseSleep
  | quizTriggered
  | genreRotated
  | backoff
  | invalidSkipped
  | trackSent (timeoutUsed : Nat) (skipFired : Bool)
  | sendFailedSleep
  deriving DecidableEq

structure LoopEnv where
  now : Nat
  catalogPick : String × Option String × String
  fill1 : List TrackInfo
  fill2 : List TrackInfo
  download : DownloadResult
  cacheHitFileId : Bool
  sendEnv : SendEnv
  skipFires : Bool
  quizEnv : RadioQuizEnv
  deriving DecidableEq

/-- radio.py lines 305-312: the send attempt, then
`wait_for(skip_event.wait(), timeout=180.0)` on success or a short sleep on
failure, then `skip_event.clear()` on both branches. -/
def sendPhase (st6 : SessionState) (fs1 : FS) (result : DownloadResult)
    (senv : SendEnv) (evs : List LoopEvent) (skipFires : Bool) :
    SessionState × FS × List LoopEvent :=
  let r := sendTrack st6 fs1 result senv
  if r.1 then
    ({ r.2.1 with skip_event := false }, r.2.2,
      evs ++ [.trackSent 180 skipFires])
  else
    ({ r.2.1 with skip_event := false }, r.2.2, evs ++ [.sendFailedSleep])

/-- radio.py lines 277-278: `played_ids.add(track.identifier)` followed by
the trim `set(list(played_ids)[250:])` once the set exceeds 500 entries. -/
def playedUpdate (st5 : SessionState) (ident : String) : SessionState :=
  let played1 := if st5.played_ids.contains ident then st5.played_ids
    else st5.played_ids ++ [ident]
  { st5 with played_ids :=
      if played1.length > 500 then played1.drop 250 else played1 }

/-- radio.py lines 259-312: the tail of a loop iteration once a track is
popped — status update, download, validation, played-set bookkeeping, the
best-effort DJ intro (caught internally, no session-state effect), then the
send-and-wait phase. -/
def afterTrack (st : SessionState) (fs : FS) (evs : List LoopEvent)
    (env : LoopEnv) : SessionState × FS × List LoopEvent :=
  match st.playlist with
  | [] => (st, fs, evs ++ [.backoff])
  | track :: restPl =>
      let st5 := updateStatus { st with playlist := restPl }
      let result := env.download
      let v := validateArtifact result env.cacheHitFileId fs
      if !v.1 then
        (deleteStatus st5, v.2, evs ++ [.invalidSkipped])
      else
        sendPhase (playedUpdate st5 track.identifier) v.2 result env.sendEnv
          evs env.skipFires

/-- radio.py lines 231-248: the state replacement a genre rotation performs
— new query/decade/display name from the catalog pick, cleared playlist,
refreshed rotation clock.  (The persona switch acts on the external
ChatManager and the announcement is a best-effort external send.) -/
def rotatedState (st : SessionState) (env : LoopEnv) : SessionState :=
  { st with query := env.catalogPick.1, decade := env.catalogPick.2.1,
            display_name := env.catalogPick.2.2, playlist := [],
            last_genre_change := env.now }

/-- radio.py lines 250-312: refill when below the low-water mark, the
empty-playlist retry with backoff, then the per-track tail. -/
def mainPhase (st1 : SessionState) (fs : FS) (evs1 : List LoopEvent)
    (env : LoopEnv) : SessionState × FS × List LoopEvent :=
  let st2 := if st1.playlist.length < 3 then fillPlaylist st1 env.fill1 else st1
  if st2.playlist.isEmpty then
    let st3 := updateStatus st2
    let st4 := fillPlaylist st3 env.fill2
    if st4.playlist.isEmpty then (st4, fs, evs1 ++ [.backoff])
    else afterTrack st4 fs evs1 env
  else afterTrack st2 fs evs1 env

def radioLoopStep (st : SessionState) (fs : FS) (env : LoopEnv) :
    SessionState × FS × List LoopEvent :=
  if !st.is_running then (st, fs, [.loopExit])
  else if st.quiz_active then (st, fs, [.quizPauseSleep])
  else if env.now - st.last_quiz_time > 1800 then
    let r := radioRunQuiz { st with last_quiz_time := env.now } fs env.quizEnv
    (r.1, r.2, [.quizTriggered])
  else if env.now - st.last_genre_change > 3600 then
    mainPhase (rotatedState st env) fs [.genreRotated] env
  else mainPhase st fs [] env

/-- Fold a list of per-iteration environments through the loop, appending
the event traces. -/
def runRadioLoop (st : SessionState) (fs : FS) (envs : List LoopEnv) :
    SessionState × FS × List LoopEvent :=
  match envs with
  | [] => (st, fs, [])
  | e :: rest =>
      let r := radioLoopStep st fs e
      let r2 := runRadioLoop r.1 r.2.1 rest
      (r2.1, r2.2.1, r.2.2 ++ r2.2.2)

/- ---------------------------------------------------------------------
   radio.py lines 366-403: RadioManager.  The registry is a map from chat id
   to session (Python dict, unique keys); the per-chat asyncio lock makes
   each of start/stop a critical section, modelled here by each operation
   being a single atomic function.  `MgrEvent` records the order of the
   externally visible steps inside `start`.
   --------------------------------------------------------------------- -/

def SessionsMap : Type := List (Int × SessionState)

def lookupS (m : SessionsMap) (chat : Int) : Option SessionState :=
  ((m.find? (fun e => e.1 == chat)).map (fun e => e.2))

def insertS (m : SessionsMap) (chat : Int) (s : SessionState) : SessionsMap :=
  (chat, s) :: m.filter (fun e => !(e.1 == chat))

def removeS (m : SessionsMap) (chat : Int) : SessionsMap :=
  m.filter (fun e => !(e.1 == chat))

def countKey (m : SessionsMap) (chat : Int) : Nat :=
  (m.filter (fun e => e.1 == chat)).length

/-- radio.py lines 90-95: RadioSession.stop — clears `is_running`, cancels
the loop task if one exists, clears the quiz flag, deletes the status
message. -/
def sessionStop (s : SessionState) : SessionState :=
  { s with is_running := false,
           task_cancelled := if s.has_task then true else s.task_cancelled,
           quiz_active := false,
           status_message := none }

/-- radio.py lines 84-88: RadioSession.start — idempotent; spawns the loop
task and marks the session running. -/
def sessionStart (s : SessionState) : SessionState :=
  if s.is_running then s
  else { s with is_running := true, has_task := true, task_cancelled := false }

/-- A fresh session as the RadioSession dataclass constructs it
(radio.py lines 385-390 with the field defaults of lines 55-82);
`now` stands for `time.time()` at construction. -/
def mkSession (chat : Int) (q dn : String) (dec : Option String) (now : Nat) :
    SessionState :=
  { chat_id := chat, query := q, display_name := dn, decade := dec,
    is_running := false, has_task := false, task_cancelled := false,
    quiz_active := false, quiz_artist := "", quiz_title := "", quiz_full := "",
    last_quiz_time := now, last_genre_change := now,
    playlist := [], played_ids := [], skip_event := false,
    status_message := none }

inductive MgrEvent where
  | stoppedOld
  | installed
  | startedLoop
  deriving DecidableEq

/-- radio.py lines 376-392: RadioManager.start under the per-chat lock.
Returns the new registry, the old session in its stopped state when one was
replaced, and the ordered trace of steps.  `catalogPick` is the uniform
random catalog entry used when the sentinel query "random" arrives; the
`display_name or query` fallback treats the empty string as falsy, as
Python does. -/
def managerStart (m : SessionsMap) (chat : Int) (query : String)
    (display_name decade : Option String)
    (catalogPick : String × Option String × String) (now : Nat) :
    SessionsMap × Option SessionState × List MgrEvent :=
  let old := lookupS m chat
  let oldStopped := old.map sessionStop
  let resolved :=
    if query = "random" then
      (catalogPick.1,
        (match decade with | some d => some d | none => catalogPick.2.1),
        (match display_name with | some d => some d | none => some catalogPick.2.2))
    else (query, decade, display_name)
  let q := resolved.1
  let dn := match resolved.2.2 with
    | some d => if d = "" then q else d
    | none => q
  let s := sessionStart (mkSession chat q dn resolved.2.1 now)
  (insertS m chat s, oldStopped,
    (if old.isSome then [MgrEvent.stoppedOld] else []) ++
      [MgrEvent.installed, MgrEvent.startedLoop])

/-- The value a Python coroutine returns: `None` or a bool.  Python `if x:`
tests truthiness; `None` is falsy. -/
inductive PyValue where
  | none
  | bool (b : Bool)
  deriving DecidableEq

def pyTruthy : PyValue → Bool
  | .none => false
  | .bool b => b

/-- radio.py lines 394-396: RadioManager.stop under the per-chat lock —
pops and stops the session if present.  The method body has no `return`
statement, so the coroutine returns `None` on every path. -/
def managerStop (m : SessionsMap) (chat : Int) :
    SessionsMap × Option SessionState × PyValue :=
  match lookupS m chat with
  | some s => (removeS m chat, some (sessionStop s), PyValue.none)
  | none => (m, none, PyValue.none)

/-- handlers.py lines 278-281: stop_command sends the confirmation message
"Радио остановлено" if and only if the value returned by
RadioManager.stop is truthy. -/
def stopCommandSendsConfirmation (m : SessionsMap) (chat : Int) : Bool :=
  pyTruthy (managerStop m chat).2.2

/- ---------------------------------------------------------------------
   quiz_service.py lines 35-182: QuizManager.  Per-chat session dicts with
   an `active` flag, the secret artist/title, and an asyncio event; the
   radio session's `quiz_active` pause flag is modelled as the optional
   Bool `radioQuiz` (`none` = no radio session for the chat).
   --------------------------------------------------------------------- -/

structure QuizSession where
  active : Bool
  artist : String
  title : String
  full : String
  eventSet : Bool
  deriving DecidableEq

def QuizMap : Type := List (Int × QuizSession)

def lookupQ (m : QuizMap) (chat : Int) : Option QuizSession :=
  ((m.find? (fun e => e.1 == chat)).map (fun e => e.2))

def insertQ (m : QuizMap) (chat : Int) (s : QuizSession) : QuizMap :=
  (chat, s) :: m.filter (fun e => !(e.1 == chat))

/-- quiz_service.py lines 43-44: `sessions.get(chat_id, {}).get('active',
False)`. -/
def quizIsActive (m : QuizMap) (chat : Int) : Bool :=
  match lookupQ m chat with
  | some s => s.active
  | none => false

/-- quiz_service.py lines 177-182: QuizManager._cleanup — deactivate the
chat's quiz session if present and clear the radio session's pause flag. -/
def quizCleanup (m : QuizMap) (radioQuiz : Option Bool) (chat : Int) :
    QuizMap × Option Bool :=
  (match lookupQ m chat with
   | some s => insertQ m chat { s with active := false }
   | none => m,
   radioQuiz.map (fun _ => false))

/-- Outcome of one start_quiz call.  `uncaught` means an exception escaped
the coroutine (no handler around the raising await). -/
inductive QuizOutcome where
  | alreadyActive
  | searchEmpty
  | downloadFailed
  | completed
  | errorHandled
  | uncaught
  deriving DecidableEq

inductive CallRes where
  | ok
  | raises
  deriving DecidableEq

structure StartQuizEnv where
  initialSend : CallRes
  searchTracks : List TrackInfo
  editFail : CallRes
  pick : Nat
  dl : DownloadResult
  avatarExists : Bool
  clipSize : Nat
  msgDelete : CallRes
  announceSend : CallRes
  mediaSend : CallRes
  answeredEarly : Bool
  roastSend : CallRes
  errSend : CallRes
  deriving DecidableEq

/-- quiz_service.py lines 66-175: QuizManager.start_quiz.

Control flow mirrored from the source: the already-active guard; setting
the radio pause flag and registering the active session (lines 71-74); the
initial `bot.send_message` (line 75) and the two handled failure paths for
empty search and failed download (lines 80-91), whose `msg.edit_text` can
itself raise before `_cleanup` runs; then the `try` block (lines 102-163)
with ffmpeg clipping, sends, the 30-second answer window, and the timeout
roast; the `except` branch (165-167) whose own send may raise; and the
`finally` (168-175) that runs `_cleanup` and deletes the input audio and
the clip.  Awaits before the `try` block have no handler: an exception
there escapes with no cleanup.  Search itself never raises (youtube.py
catches internally); chat_manager.get_response never raises
(chat_service.py catches internally). -/
def startQuiz (qm : QuizMap) (radioQuiz : Option Bool) (fs : FS) (chat : Int)
    (env : StartQuizEnv) : QuizMap × Option Bool × FS × QuizOutcome :=
  if quizIsActive qm chat then (qm, radioQuiz, fs, .alreadyActive)
  else
    let radio1 := radioQuiz.map (fun _ => true)
    let qm1 := insertQ qm chat ⟨true, "", "", "", false⟩
    if env.initialSend = .raises then (qm1, radio1, fs, .uncaught)
    else if env.searchTracks.isEmpty then
      if env.editFail = .raises then (qm1, radio1, fs, .uncaught)
      else
        let c := quizCleanup qm1 radio1 chat
        (c.1, c.2, fs, .searchEmpty)
    else
      let track := (env.searchTracks.take 3).getD
        (env.pick % min 3 env.searchTracks.length) defaultTrack
      let dl := env.dl
      if !(dl.success && pathTruthy dl.file_path) then
        if env.editFail = .raises then (qm1, radio1, fs, .uncaught)
        else
          let c := quizCleanup qm1 radio1 chat
          (c.1, c.2, fs, .downloadFailed)
      else
        let info := dl.track_info.getD defaultTrack
        let input_audio := dl.file_path.getD ""
        let output := if env.avatarExists then
            "downloads/quiz_" ++ track.identifier ++ ".mp4"
          else "downloads/quiz_" ++ track.identifier ++ ".ogg"
        let fs1 := if env.clipSize > 0 then fsSet fs output env.clipSize else fs
        let finalize := fun (qmx : QuizMap) (rx : Option Bool) (out : QuizOutcome) =>
          let c := quizCleanup qmx rx chat
          let fs2 := if !dl.is_url ∧ fsHas fs1 input_audio then
              fsUnlink fs1 input_audio else fs1
          let fs3 := if fsHas fs2 output then fsUnlink fs2 output else fs2
          (c.1, c.2, fs3, out)
        if env.clipSize = 0 then
          finalize qm1 radio1
            (if env.errSend = .raises then .uncaught else .errorHandled)
        else if env.msgDelete = .raises ∨ env.announceSend = .raises ∨
            env.mediaSend = .raises then
          finalize qm1 radio1
            (if env.errSend = .raises then .uncaught else .errorHandled)
        else
          let qm2 := match lookupQ qm1 chat with
            | some s => insertQ qm1 chat
                { s with artist := info.artist, title := info.title,
                         full := info.artist ++ " - " ++ info.title }
            | none => qm1
          if env.answeredEarly then finalize qm2 radio1 .completed
          else if quizIsActive qm2 chat then
            let qm3 := match lookupQ qm2 chat with
              | some s => insertQ qm2 chat { s with active := false }
              | none => qm2
            if env.roastSend = .raises then
              finalize qm3 radio1
                (if env.errSend = .raises then .uncaught else .errorHandled)
            else finalize qm3 radio1 .completed
          else finalize qm2 radio1 .completed

/- ---------------------------------------------------------------------
   Refinement comparison for claim C4: the wait timeout as the spec
   describes it (the track's duration capped at a configured maximum, a
   fallback when the duration is unknown).  This definition follows the
   spec's words, for comparison against the code's fixed
   `wait_for(..., timeout=180.0)`.
   --------------------------------------------------------------------- -/

def specWaitTimeout (cap fallback duration : Nat) : Nat :=
  if duration = 0 then fallback else min duration cap

/- ---------------------------------------------------------------------
   Concrete states used by witnesses and counterexamples.
   --------------------------------------------------------------------- -/

def exampleSession : SessionState :=
  { chat_id := 1, query := "rock", display_name := "Rock", decade := none,
    is_running := true, has_task := true, task_cancelled := false,
    quiz_active := false, quiz_artist := "", quiz_title := "", quiz_full := "",
    last_quiz_time := 100, last_genre_change := 100,
    playlist := [], played_ids := [], skip_event := false,
    status_message := none }

def okSendEnv : SendEnv := ⟨.ok, none, .ok, .ok⟩

def failedDownload : DownloadResult := ⟨false, none, false, none⟩

def idleQuizEnv : RadioQuizEnv := ⟨[], 0, failedDownload, false, false⟩

/-- Six-iteration environment: downloads fail every time, no quiz due, no
hour elapsed since the last genre change. -/
def envFailC3 : LoopEnv :=
  { now := 100, catalogPick := ("x", none, "X"), fill1 := [], fill2 := [],
    download := failedDownload, cacheHitFileId := false,
    sendEnv := okSendEnv, skipFires := false, quizEnv := idleQuizEnv }

def mkTrk (i : Nat) : TrackInfo := ⟨"i" ++ toString i, "t", "a", 60⟩

def stC3 : SessionState :=
  { exampleSession with playlist := (List.range 10).map mkTrk }

def track30 : TrackInfo := ⟨"id30", "T", "A", 30⟩

def stC4 : SessionState := { exampleSession with playlist := [track30] }

def envC4 : LoopEnv :=
  { now := 100, catalogPick := ("x", none, "X"), fill1 := [], fill2 := [],
    download := ⟨true, some "downloads/id30.mp3", false, some track30⟩,
    cacheHitFileId := false, sendEnv := okSendEnv, skipFires := false,
    quizEnv := idleQuizEnv }

def fsC4 : FS := [("downloads/id30.mp3", 1000)]

/-- Environment whose very first `bot.send_message` (quiz_service.py
line 75) raises — e.g. the bot was blocked — after the quiz was flagged
active. -/
def envQuizRaise : StartQuizEnv :=
  { initialSend := .raises, searchTracks := [], editFail := .ok, pick := 0,
    dl := failedDownload, avatarExists := false, clipSize := 0,
    msgDelete := .ok, announceSend := .ok, mediaSend := .ok,
    answeredEarly := false, roastSend := .ok, errSend := .ok }

def quizTrack : TrackInfo := ⟨"q1", "T", "A", 100⟩

/-- Environment where the quiz reaches the `try` block and ffmpeg fails to
produce a clip (handled path: the `finally` cleanup runs). -/
def envQuizFfmpegFail : StartQuizEnv :=
  { initialSend := .ok, searchTracks := [quizTrack], editFail := .ok,
    pick := 0, dl := ⟨true, some "downloads/q1.mp3", false, some quizTrack⟩,
    avatarExists := false, clipSize := 0, msgDelete := .ok,
    announceSend := .ok, mediaSend := .ok, answeredEarly := false,
    roastSend := .ok, errSend := .ok }

def exampleRegistry : SessionsMap := [((1 : Int), exampleSession)]

/- ---------------------------------------------------------------------
   Theorems for claims C8, C10, C2.
   --------------------------------------------------------------------- -/

theorem fsHas_fsUnlink (fs : FS) (p : String) :
    fsHas (fsUnlink fs p) p = false := by
  induction fs with
  | nil => rfl
  | cons e rest ih =>
      by_cases h : e.1 == p
      · simpa [fsUnlink, List.filter, h] using ih
      · simp only [fsUnlink, List.filter, h] at ih ⊢
        simp [fsHas, h] at ih ⊢
        try exact ih

/-- C8: the quiz fuzzy matcher satisfies the spec's three unit cases:
"морген" matches "Моргенштерн - Cadillac", "abc" does not match
"Imagine Dragons - Believer", and "believer" matches
"Imagine Dragons - Believer". -/
theorem isFuzzyMatch_spec_unit_cases :
    isFuzzyMatch "морген" "Моргенштерн - Cadillac" = true ∧
    isFuzzyMatch "abc" "Imagine Dragons - Believer" = false ∧
    isFuzzyMatch "believer" "Imagine Dragons - Believer" = true :=
  ⟨rfl, rfl, rfl⟩

/-- C10 counterexample: a whitespace-only (hence nonempty, truthy) user
input passes the emptiness guard, strips to the empty string, and the empty
string is a Python-substring of every target, so `is_fuzzy_match` returns
true — the claim says such input reduces to a falsy check and can never
win. -/
theorem isFuzzyMatch_whitespace_wins :
    isFuzzyMatch " " "Imagine Dragons - Believer" = true := rfl

/-- C10 amended: `is_fuzzy_match` returns false whenever `user_input` or
`target` is the empty string (the guard at quiz_service.py line 14); the
whitespace-only case is excluded from the claim because it matches every
target. -/
theorem isFuzzyMatch_empty_false (u t : String) :
    isFuzzyMatch "" t = false ∧ isFuzzyMatch u "" = false := by
  have h : ("" : String).isEmpty = true := rfl
  constructor <;> simp [isFuzzyMatch, h]

/-- C2 counterexample: with a quiz active (secret "Queen - Bohemian
Rhapsody"), the non-matching message "включи рок" is not consumed by
quiz-answer checking — it reaches intent classification and starts a radio
session, contradicting the claim that every message during an active quiz
is swallowed. -/
theorem textRoute_quiz_nonmatch_reaches_intent :
    (textRoute ⟨true, "Queen", "Bohemian Rhapsody", "Queen - Bohemian Rhapsody"⟩
        (some "включи рок") false false (some "radio") (some "рок")).1 =
      RouteAction.radioStart "рок" := rfl

/-- C2 amended: while a quiz is active, a message whose cleaned text
contains the cleaned secret title or artist is consumed by quiz handling
(the quiz is deactivated and no other action is taken); a non-matching
message is not swallowed — it is routed exactly as normal text
(Spotify-URL handling, direct address, intent classification). -/
theorem textRoute_quiz_exclusivity (cd : ChatData) (msg : String)
    (p r : Bool) (intent query : Option String)
    (hmsg : msg ≠ "") (hact : cd.quiz_active = true) :
    (quizAnswerMatches cd msg = true →
        textRoute cd (some msg) p r intent query =
          (.quizWin, { cd with quiz_active := false })) ∧
    (quizAnswerMatches cd msg = false →
        (textRoute cd (some msg) p r intent query).1 =
          normalRoute msg p r intent query) := by
  constructor <;> intro hm <;> simp [textRoute, hmsg, hact, hm]

/-- Witness for C2's amended theorem at a concrete non-matching input. -/
theorem textRoute_quiz_exclusivity_witness :
    (textRoute ⟨true, "Queen", "Bohemian Rhapsody", ""⟩ (some "hello there")
        false false (some "chat") none).1 =
      normalRoute "hello there" false false (some "chat") none :=
  (textRoute_quiz_exclusivity ⟨true, "Queen", "Bohemian Rhapsody", ""⟩
    "hello there" false false (some "chat") none (by decide) rfl).2 (by decide)

/-- C5: after any _send_track attempt for a track backed by a local file —
success, transient failure, or Forbidden — the local artifact no longer
exists on disk (the `finally` block at radio.py lines 361-364 unlinks
it). -/
theorem sendTrack_deletes_local_file (st : SessionState) (fs : FS)
    (result : DownloadResult) (env : SendEnv) (p : String)
    (hurl : result.is_url = false) (hp : result.file_path = some p)
    (hne : p ≠ "") :
    fsHas (sendTrack st fs result env).2.2 p = false := by
  unfold sendTrack
  simp only [hurl, hp]
  by_cases h : fsHas fs p
  · simp [pathTruthy, hne, h, fsHas_fsUnlink]
  · simp [pathTruthy, hne, h]

/-- Witness for C5 at a concrete local artifact. -/
theorem sendTrack_deletes_local_file_witness :
    fsHas (sendTrack exampleSession [("a.mp3", 5)]
        ⟨true, some "a.mp3", false, none⟩ okSendEnv).2.2 "a.mp3" = false :=
  sendTrack_deletes_local_file exampleSession [("a.mp3", 5)]
    ⟨true, some "a.mp3", false, none⟩ okSendEnv "a.mp3" rfl rfl (by decide)

/-- When the downloaded artifact is invalid, the post-download tail of the
loop iteration only ever appends the skip-and-continue event. -/
theorem afterTrack_invalid_trace (st : SessionState) (fs : FS)
    (evs : List LoopEvent) (env : LoopEnv)
    (hv : (validateArtifact env.download env.cacheHitFileId fs).1 = false) :
    (afterTrack st fs evs env).2.2 = evs ++ [.backoff] ∨
    (afterTrack st fs evs env).2.2 = evs ++ [.invalidSkipped] := by
  unfold afterTrack
  cases hpl : st.playlist with
  | nil => left; rfl
  | cons tr rest =>
      right
      simp [hv]

/-- The send-and-wait phase appends exactly one event — the send event
carrying the literal 180-second timeout, or the failure sleep — and always
clears the skip flag. -/
theorem sendPhase_cases (st6 : SessionState) (fs1 : FS)
    (result : DownloadResult) (senv : SendEnv) (evs : List LoopEvent)
    (skipFires : Bool) :
    ((sendPhase st6 fs1 result senv evs skipFires).2.2 =
        evs ++ [.sendFailedSleep] ∨
      (sendPhase st6 fs1 result senv evs skipFires).2.2 =
        evs ++ [.trackSent 180 skipFires]) ∧
    (sendPhase st6 fs1 result senv evs skipFires).1.skip_event = false := by
  by_cases h : (sendTrack st6 fs1 result senv).1
  · simp [sendPhase, h]
  · simp [sendPhase, h]

/-- Status updates never touch the session's genre identity or rotation
clock. -/
theorem updateStatus_genre_invariant (s : SessionState) :
    (updateStatus s).query = s.query ∧
    (updateStatus s).last_genre_change = s.last_genre_change := by
  unfold updateStatus
  split <;> exact ⟨rfl, rfl⟩

/-- `_send_track` never touches the session's genre identity or rotation
clock. -/
theorem sendTrack_genre_invariant (st : SessionState) (fs : FS)
    (result : DownloadResult) (env : SendEnv) :
    (sendTrack st fs result env).2.1.query = st.query ∧
    (sendTrack st fs result env).2.1.last_genre_change = st.last_genre_change := by
  unfold sendTrack
  rcases env with ⟨us, cf, cs, fsnd⟩
  cases hurl : result.is_url <;>
    cases us <;> rcases cf with _ | c <;> cases cs <;> cases fsnd <;>
    rcases hfp : result.file_path with _ | p <;>
    simp [deleteStatus, handleForbidden] <;>
    (try split_ifs) <;> (try simp [deleteStatus, handleForbidden])

/-- Neither does the send-and-wait phase. -/
theorem sendPhase_genre_invariant (st6 : SessionState) (fs1 : FS)
    (result : DownloadResult) (senv : SendEnv) (evs : List LoopEvent)
    (skipFires : Bool) :
    (sendPhase st6 fs1 result senv evs skipFires).1.query = st6.query ∧
    (sendPhase st6 fs1 result senv evs skipFires).1.last_genre_change =
      st6.last_genre_change := by
  by_cases h : (sendTrack st6 fs1 result senv).1
  · simp [sendPhase, h]
    exact ⟨(sendTrack_genre_invariant _ _ _ _).1,
      (sendTrack_genre_invariant _ _ _ _).2⟩
  · simp [sendPhase, h]
    exact ⟨(sendTrack_genre_invariant _ _ _ _).1,
      (sendTrack_genre_invariant _ _ _ _).2⟩

/-- The post-download tail appends exactly one event: a continue-style
event, or the send event with the literal 180-second wait timeout and the
skip flag cleared in the resulting state. -/
theorem afterTrack_cases (st : SessionState) (fs : FS) (evs : List LoopEvent)
    (env : LoopEnv) :
    (∃ e, (e = LoopEvent.backoff ∨ e = LoopEvent.invalidSkipped ∨
        e = LoopEvent.sendFailedSleep) ∧
      (afterTrack st fs evs env).2.2 = evs ++ [e]) ∨
    ((afterTrack st fs evs env).2.2 =
        evs ++ [LoopEvent.trackSent 180 env.skipFires] ∧
      (afterTrack st fs evs env).1.skip_event = false) := by
  unfold afterTrack
  cases hpl : st.playlist with
  | nil => exact Or.inl ⟨.backoff, Or.inl rfl, rfl⟩
  | cons tr rest =>
      by_cases hv : (validateArtifact env.download env.cacheHitFileId fs).1
      · simp only [hv, Bool.not_true, Bool.false_eq_true, if_false]
        rcases sendPhase_cases
            (playedUpdate (updateStatus { st with playlist := rest })
              tr.identifier)
            (validateArtifact env.download env.cacheHitFileId fs).2
            env.download env.sendEnv evs env.skipFires with ⟨h1 | h1, h2⟩
        · exact Or.inl ⟨.sendFailedSleep, Or.inr (Or.inr rfl), h1⟩
        · exact Or.inr ⟨h1, h2⟩
      · simp only [Bool.not_eq_true] at hv
        simp only [hv, Bool.not_false, if_true]
        exact Or.inl ⟨.invalidSkipped, Or.inr (Or.inl rfl), rfl⟩

/-- The post-download tail never touches the genre identity or rotation
clock. -/
theorem afterTrack_genre_invariant (st : SessionState) (fs : FS)
    (evs : List LoopEvent) (env : LoopEnv) :
    (afterTrack st fs evs env).1.query = st.query ∧
    (afterTrack st fs evs env).1.last_genre_change = st.last_genre_change := by
  unfold afterTrack
  cases hpl : st.playlist with
  | nil => exact ⟨rfl, rfl⟩
  | cons tr rest =>
      by_cases hv : (validateArtifact env.download env.cacheHitFileId fs).1
      · simp only [hv, Bool.not_true, Bool.false_eq_true, if_false]
        have h := sendPhase_genre_invariant
          (playedUpdate (updateStatus { st with playlist := rest })
            tr.identifier)
          (validateArtifact env.download env.cacheHitFileId fs).2
          env.download env.sendEnv evs env.skipFires
        have hu := updateStatus_genre_invariant { st with playlist := rest }
        constructor
        · rw [h.1]; exact hu.1
        · rw [h.2]; exact hu.2
      · simp only [Bool.not_eq_true] at hv
        simp only [hv, Bool.not_false, if_true]
        have hu := updateStatus_genre_invariant { st with playlist := rest }
        exact ⟨hu.1, hu.2⟩

/-- A send event in the post-download tail pins down everything the claims
need: the wait timeout is the literal 180, the skip outcome is the
environment's, the skip flag ends cleared, and the artifact had passed
validation. -/
theorem afterTrack_trackSent_mem (st' : SessionState) (fs : FS)
    (evs : List LoopEvent) (env : LoopEnv) (t : Nat) (b : Bool)
    (hevs : ∀ t' b', LoopEvent.trackSent t' b' ∉ evs)
    (hmem : LoopEvent.trackSent t b ∈ (afterTrack st' fs evs env).2.2) :
    t = 180 ∧ b = env.skipFires ∧
    (afterTrack st' fs evs env).1.skip_event = false ∧
    (validateArtifact env.download env.cacheHitFileId fs).1 = true := by
  unfold afterTrack at hmem ⊢
  revert hmem
  cases hpl : st'.playlist with
  | nil =>
      intro hmem
      rcases List.mem_append.mp hmem with h | h
      · exact absurd h (hevs t b)
      · simp at h
  | cons tr rest =>
      intro hmem
      by_cases hv : (validateArtifact env.download env.cacheHitFileId fs).1
      · simp only [hv, Bool.not_true, Bool.false_eq_true, if_false] at hmem ⊢
        rcases sendPhase_cases
            (playedUpdate (updateStatus { st' with playlist := rest })
              tr.identifier)
            (validateArtifact env.download env.cacheHitFileId fs).2
            env.download env.sendEnv evs env.skipFires with ⟨h1 | h1, h2⟩
        · rw [h1] at hmem
          rcases List.mem_append.mp hmem with h | h
          · exact absurd h (hevs t b)
          · simp at h
        · rw [h1] at hmem
          rcases List.mem_append.mp hmem with h | h
          · exact absurd h (hevs t b)
          · simp at h
            exact ⟨h.1, h.2, h2, by simp [hv]⟩
      · simp only [Bool.not_eq_true] at hv
        simp only [hv, Bool.not_false, if_true] at hmem
        rcases List.mem_append.mp hmem with h | h
        · exact absurd h (hevs t b)
        · simp at h

/-- The rotation event is in the tail's trace exactly when it was already in
the prefix passed in. -/
theorem afterTrack_genreRotated_mem (st' : SessionState) (fs : FS)
    (evs : List LoopEvent) (env : LoopEnv) :
    (LoopEvent.genreRotated ∈ (afterTrack st' fs evs env).2.2 ↔
      LoopEvent.genreRotated ∈ evs) := by
  rcases afterTrack_cases st' fs evs env with ⟨e, he, htr⟩ | ⟨htr, _⟩
  · rw [htr]
    rcases he with rfl | rfl | rfl <;> simp
  · rw [htr]; simp

/-- `_fill_playlist` never touches the genre identity or rotation clock. -/
theorem fillPlaylist_genre_invariant (st : SessionState)
    (hits : List TrackInfo) :
    (fillPlaylist st hits).query = st.query ∧
    (fillPlaylist st hits).last_genre_change = st.last_genre_change := by
  simp only [fillPlaylist]
  split_ifs <;> exact ⟨rfl, rfl⟩

/-- The refill-and-play phase either backs off (appending only the backoff
event and leaving genre identity alone) or hands over to the per-track tail
with a state of unchanged genre identity. -/
theorem mainPhase_decomp (st1 : SessionState) (fs : FS)
    (evs1 : List LoopEvent) (env : LoopEnv) :
    ((mainPhase st1 fs evs1 env).2.2 = evs1 ++ [LoopEvent.backoff] ∧
      (mainPhase st1 fs evs1 env).1.query = st1.query ∧
      (mainPhase st1 fs evs1 env).1.last_genre_change =
        st1.last_genre_change) ∨
    (∃ st', st'.query = st1.query ∧
      st'.last_genre_change = st1.last_genre_change ∧
      mainPhase st1 fs evs1 env = afterTrack st' fs evs1 env) := by
  unfold mainPhase
  by_cases hf : st1.playlist.length < 3
  · simp only [hf, if_true]
    by_cases he : (fillPlaylist st1 env.fill1).playlist.isEmpty
    · simp only [he, if_true]
      by_cases he2 : (fillPlaylist (updateStatus (fillPlaylist st1 env.fill1))
          env.fill2).playlist.isEmpty
      · simp only [he2, if_true]
        left
        refine ⟨by trivial, ?_, ?_⟩
        · rw [(fillPlaylist_genre_invariant _ _).1,
            (updateStatus_genre_invariant _).1,
            (fillPlaylist_genre_invariant _ _).1]
        · rw [(fillPlaylist_genre_invariant _ _).2,
            (updateStatus_genre_invariant _).2,
            (fillPlaylist_genre_invariant _ _).2]
      · simp only [he2, Bool.false_eq_true, if_false]
        right
        refine ⟨_, ?_, ?_, rfl⟩
        · rw [(fillPlaylist_genre_invariant _ _).1,
            (updateStatus_genre_invariant _).1,
            (fillPlaylist_genre_invariant _ _).1]
        · rw [(fillPlaylist_genre_invariant _ _).2,
            (updateStatus_genre_invariant _).2,
            (fillPlaylist_genre_invariant _ _).2]
    · simp only [he, Bool.false_eq_true, if_false]
      right
      refine ⟨_, ?_, ?_, rfl⟩
      · rw [(fillPlaylist_genre_invariant _ _).1]
      · rw [(fillPlaylist_genre_invariant _ _).2]
  · simp only [hf, if_false]
    by_cases he : st1.playlist.isEmpty
    · simp only [he, if_true]
      by_cases he2 : (fillPlaylist (updateStatus st1)
          env.fill2).playlist.isEmpty
      · simp only [he2, if_true]
        left
        refine ⟨by trivial, ?_, ?_⟩
        · rw [(fillPlaylist_genre_invariant _ _).1,
            (updateStatus_genre_invariant _).1]
        · rw [(fillPlaylist_genre_invariant _ _).2,
            (updateStatus_genre_invariant _).2]
      · simp only [he2, Bool.false_eq_true, if_false]
        right
        refine ⟨_, ?_, ?_, rfl⟩
        · rw [(fillPlaylist_genre_invariant _ _).1,
            (updateStatus_genre_invariant _).1]
        · rw [(fillPlaylist_genre_invariant _ _).2,
            (updateStatus_genre_invariant _).2]
    · simp only [he, Bool.false_eq_true, if_false]
      right
      exact ⟨st1, rfl, rfl, rfl⟩

/-- Lifting of `afterTrack_trackSent_mem` through the refill phase. -/
theorem mainPhase_trackSent (st1 : SessionState) (fs : FS)
    (evs1 : List LoopEvent) (env : LoopEnv) (t : Nat) (b : Bool)
    (hevs : ∀ t' b', LoopEvent.trackSent t' b' ∉ evs1)
    (hmem : LoopEvent.trackSent t b ∈ (mainPhase st1 fs evs1 env).2.2) :
    t = 180 ∧ b = env.skipFires ∧
    (mainPhase st1 fs evs1 env).1.skip_event = false ∧
    (validateArtifact env.download env.cacheHitFileId fs).1 = true := by
  rcases mainPhase_decomp st1 fs evs1 env with ⟨h, _, _⟩ | ⟨st', _, _, h⟩
  · rw [h] at hmem
    rcases List.mem_append.mp hmem with hh | hh
    · exact absurd hh (hevs t b)
    · simp at hh
  · rw [h] at hmem ⊢
    exact afterTrack_trackSent_mem st' fs evs1 env t b hevs hmem

/-- Lifting of `afterTrack_genreRotated_mem` through the refill phase. -/
theorem mainPhase_genreRotated (st1 : SessionState) (fs : FS)
    (evs1 : List LoopEvent) (env : LoopEnv) :
    (LoopEvent.genreRotated ∈ (mainPhase st1 fs evs1 env).2.2 ↔
      LoopEvent.genreRotated ∈ evs1) := by
  rcases mainPhase_decomp st1 fs evs1 env with ⟨h, _, _⟩ | ⟨st', _, _, h⟩
  · rw [h]; simp
  · rw [h]; exact afterTrack_genreRotated_mem st' fs evs1 env

/-- The refill-and-play phase never touches the genre identity or rotation
clock. -/
theorem mainPhase_genre_invariant (st1 : SessionState) (fs : FS)
    (evs1 : List LoopEvent) (env : LoopEnv) :
    (mainPhase st1 fs evs1 env).1.query = st1.query ∧
    (mainPhase st1 fs evs1 env).1.last_genre_change =
      st1.last_genre_change := by
  rcases mainPhase_decomp st1 fs evs1 env with ⟨_, hq, hl⟩ | ⟨st', hq, hl, h⟩
  · exact ⟨hq, hl⟩
  · rw [h]
    constructor
    · rw [(afterTrack_genre_invariant _ _ _ _).1]; exact hq
    · rw [(afterTrack_genre_invariant _ _ _ _).2]; exact hl

/-- Any send event in a loop iteration carries the literal 180-second wait,
ends with the skip flag cleared, and presupposes a validated artifact. -/
theorem radioLoopStep_trackSent (st : SessionState) (fs : FS) (env : LoopEnv)
    (t : Nat) (b : Bool)
    (hmem : LoopEvent.trackSent t b ∈ (radioLoopStep st fs env).2.2) :
    t = 180 ∧ b = env.skipFires ∧
    (radioLoopStep st fs env).1.skip_event = false ∧
    (validateArtifact env.download env.cacheHitFileId fs).1 = true := by
  unfold radioLoopStep at hmem ⊢
  by_cases h1 : st.is_running
  case neg => simp [h1] at hmem
  have h1' : ¬((!st.is_running) = true) := by simp [h1]
  rw [if_neg h1'] at hmem ⊢
  by_cases h2 : st.quiz_active
  case pos => rw [if_pos h2] at hmem; simp at hmem
  rw [if_neg h2] at hmem ⊢
  by_cases h3 : env.now - st.last_quiz_time > 1800
  case pos => rw [if_pos h3] at hmem; simp at hmem
  rw [if_neg h3] at hmem ⊢
  by_cases hrot : env.now - st.last_genre_change > 3600
  · rw [if_pos hrot] at hmem ⊢
    exact mainPhase_trackSent _ fs [.genreRotated] env t b
      (by intro t' b'; simp) hmem
  · rw [if_neg hrot] at hmem ⊢
    exact mainPhase_trackSent st fs [] env t b (by intro t' b'; simp) hmem

/-- C3 amended: in a loop iteration that is not pre-empted by the quiz
branches, a genre rotation happens if and only if more than 3600 seconds
have elapsed since the last rotation; when it happens, the rotation clock
is refreshed and the query is replaced by the catalog pick.  There is no
download-failure counter and no failure-based trigger. -/
theorem radioLoop_rotation_iff_time (st : SessionState) (fs : FS)
    (env : LoopEnv) (h1 : st.is_running = true) (h2 : st.quiz_active = false)
    (h3 : ¬(env.now - st.last_quiz_time > 1800)) :
    (LoopEvent.genreRotated ∈ (radioLoopStep st fs env).2.2 ↔
      env.now - st.last_genre_change > 3600) ∧
    (env.now - st.last_genre_change > 3600 →
      (radioLoopStep st fs env).1.last_genre_change = env.now ∧
      (radioLoopStep st fs env).1.query = env.catalogPick.1) := by
  unfold radioLoopStep
  have h1' : ¬((!st.is_running) = true) := by simp [h1]
  have h2' : ¬(st.quiz_active = true) := by simp [h2]
  rw [if_neg h1', if_neg h2', if_neg h3]
  by_cases hrot : env.now - st.last_genre_change > 3600
  · rw [if_pos hrot]
    constructor
    · rw [mainPhase_genreRotated]
      simp [hrot]
    · intro _
      have hg := mainPhase_genre_invariant (rotatedState st env) fs
        [.genreRotated] env
      constructor
      · rw [hg.2]; rfl
      · rw [hg.1]; rfl
  · rw [if_neg hrot]
    constructor
    · rw [mainPhase_genreRotated]
      simp [hrot]
    · intro h; exact absurd h hrot

/-- Witness for C3's amended theorem at a concrete state. -/
theorem radioLoop_rotation_iff_time_witness :
    (LoopEvent.genreRotated ∈ (radioLoopStep stC3 [] envFailC3).2.2 ↔
      envFailC3.now - stC3.last_genre_change > 3600) :=
  (radioLoop_rotation_iff_time stC3 [] envFailC3 rfl rfl (by decide)).1

/-- C3 counterexample: six consecutive download failures (the claim's
threshold of five exceeded) while no hour has elapsed — every iteration
skips the invalid artifact and no genre rotation ever happens; the query
is unchanged.  The code keeps no failure counter at all. -/
theorem radioLoop_six_failures_no_rotation :
    (runRadioLoop stC3 [] (List.replicate 6 envFailC3)).2.2 =
      List.replicate 6 LoopEvent.invalidSkipped ∧
    (runRadioLoop stC3 [] (List.replicate 6 envFailC3)).1.query = "rock" :=
  ⟨rfl, rfl⟩

/-- C4 amended: after a successful send the loop waits on the skip event
with the fixed timeout of 180 seconds — regardless of the track's duration
— and the skip event is cleared afterwards whichever of skip or timeout
fired. -/
theorem radioLoop_wait_fixed_180 (st : SessionState) (fs : FS)
    (env : LoopEnv) (t : Nat) (b : Bool)
    (hmem : LoopEvent.trackSent t b ∈ (radioLoopStep st fs env).2.2) :
    t = 180 ∧ (radioLoopStep st fs env).1.skip_event = false :=
  ⟨(radioLoopStep_trackSent st fs env t b hmem).1,
    (radioLoopStep_trackSent st fs env t b hmem).2.2.1⟩

/-- Witness for C4's amended theorem at a concrete successful send. -/
theorem radioLoop_wait_fixed_180_witness :
    (180 : Nat) = 180 ∧ (radioLoopStep stC4 fsC4 envC4).1.skip_event = false :=
  radioLoop_wait_fixed_180 stC4 fsC4 envC4 180 false (by decide)

/-- C4 counterexample: a track of known duration 30 seconds is sent and the
loop waits 180 seconds, not the duration-capped timeout the claim
describes (which would be 30 for any cap ≥ 30, here 300). -/
theorem radioLoop_wait_ignores_duration :
    (radioLoopStep stC4 fsC4 envC4).2.2 = [LoopEvent.trackSent 180 false] ∧
    specWaitTimeout 300 180 track30.duration = 30 ∧ (180 : Nat) ≠ 30 := by
  refine ⟨by rfl, by rfl, by decide⟩

/-- C7 amended: an artifact is accepted exactly when the download succeeded
and it is a remote URL, a file-id cache hit, or an existing local file of
size at most 20 MiB; an oversized local file is rejected and unlinked; a
rejected artifact is never sent in that iteration.  There is no
minimum-size check. -/
theorem artifact_validation_policy :
    (∀ (r : DownloadResult) (c : Bool) (fs : FS),
        ((validateArtifact r c fs).1 = true ↔
          r.success = true ∧ (r.is_url = true ∨ c = true ∨
            ∃ p, r.file_path = some p ∧ p ≠ "" ∧ fsHas fs p = true ∧
              fsSize fs p ≤ 20971520))) ∧
    (∀ (r : DownloadResult) (c : Bool) (fs : FS) (p : String),
        r.success = true → r.is_url = false → c = false →
        r.file_path = some p → p ≠ "" → fsHas fs p = true →
        20971520 < fsSize fs p →
        validateArtifact r c fs = (false, fsUnlink fs p)) ∧
    (∀ (st : SessionState) (fs : FS) (env : LoopEnv) (t : Nat) (b : Bool),
        (validateArtifact env.download env.cacheHitFileId fs).1 = false →
        LoopEvent.trackSent t b ∉ (radioLoopStep st fs env).2.2) := by
  refine ⟨?_, ?_, ?_⟩
  · intro r c fs
    rcases r with ⟨succ, fp, url, ti⟩
    cases succ <;> cases url <;> cases c <;> rcases fp with _ | p <;>
      simp [validateArtifact] <;> split_ifs <;> simp_all
  · intro r c fs p hs hu hc hp hne hhas hsz
    rcases r with ⟨succ, fp, url, ti⟩
    cases hs; cases hu; cases hc; cases hp
    have : ¬(fsSize fs p ≤ 20971520) := by omega
    simp [validateArtifact, hne, hhas, this]
  · intro st fs env t b hv hmem
    have h := (radioLoopStep_trackSent st fs env t b hmem).2.2.2
    rw [hv] at h
    cases h

/-- Witness for C7's amended theorem: a 30 MB local file is rejected and
unlinked. -/
theorem artifact_validation_policy_witness :
    validateArtifact ⟨true, some "big.mp3", false, none⟩ false
        [("big.mp3", 30000000)] =
      (false, fsUnlink [("big.mp3", 30000000)] "big.mp3") :=
  artifact_validation_policy.2.1 ⟨true, some "big.mp3", false, none⟩ false
    [("big.mp3", 30000000)] "big.mp3" rfl rfl rfl rfl (by decide) (by decide)
    (by decide)

/-- C7 counterexample: a zero-byte local artifact — certainly "too small /
likely corrupt" — passes validation, because the code only checks the
20 MiB upper bound; the claim's lower-bound rejection does not exist. -/
theorem validateArtifact_accepts_zero_byte_file :
    validateArtifact ⟨true, some "t.mp3", false, none⟩ false [("t.mp3", 0)] =
      (true, [("t.mp3", 0)]) := rfl

theorem filter_out_key (m : SessionsMap) (chat : Int) :
    (m.filter (fun e => !(e.1 == chat))).filter (fun e => e.1 == chat) = [] := by
  induction m with
  | nil => rfl
  | cons e rest ih => by_cases h : e.1 == chat <;> simp [List.filter, h, ih]

theorem countKey_insertS (m : SessionsMap) (chat : Int) (s : SessionState) :
    countKey (insertS m chat s) chat = 1 := by
  simp [countKey, insertS, List.filter, filter_out_key m chat]

theorem lookupS_insertS (m : SessionsMap) (chat : Int) (s : SessionState) :
    lookupS (insertS m chat s) chat = some s := by
  simp [lookupS, insertS, List.find?]

/-- C1: RadioManager.start, the whole body atomic under the per-chat lock —
afterwards exactly one session is registered for the chat and it is
running with a live loop task; any previously registered session has been
stopped (loop task cancelled, `is_running` false, quiz flag cleared,
status removed), and the stop step precedes the install and loop-start
steps in the operation's trace. -/
theorem managerStart_single_session (m : SessionsMap) (chat : Int)
    (query : String) (display_name decade : Option String)
    (pick : String × Option String × String) (now : Nat) :
    countKey (managerStart m chat query display_name decade pick now).1
        chat = 1 ∧
    (∃ s, lookupS (managerStart m chat query display_name decade pick now).1
        chat = some s ∧ s.is_running = true ∧ s.has_task = true ∧
        s.task_cancelled = false) ∧
    (∀ s, lookupS m chat = some s →
      (managerStart m chat query display_name decade pick now).2.1 =
          some (sessionStop s) ∧
        (sessionStop s).is_running = false ∧
        (s.has_task = true → (sessionStop s).task_cancelled = true) ∧
        (sessionStop s).quiz_active = false ∧
        (sessionStop s).status_message = none ∧
        (managerStart m chat query display_name decade pick now).2.2 =
          [MgrEvent.stoppedOld, MgrEvent.installed, MgrEvent.startedLoop]) ∧
    (lookupS m chat = none →
      (managerStart m chat query display_name decade pick now).2.2 =
        [MgrEvent.installed, MgrEvent.startedLoop]) := by
  refine ⟨countKey_insertS m chat _, ⟨_, lookupS_insertS m chat _, rfl, rfl, rfl⟩,
    ?_, ?_⟩
  · intro s hs
    refine ⟨?_, rfl, ?_, rfl, rfl, ?_⟩
    · simp [managerStart, hs]
    · intro h; simp [sessionStop, h]
    · simp [managerStart, hs]
  · intro h
    simp [managerStart, h]

/-- Witness for C1 at a concrete registry holding an old session. -/
theorem managerStart_single_session_witness :
    (managerStart exampleRegistry 1 "jazz" none none ("x", none, "X")
        200).2.1 = some (sessionStop exampleSession) :=
  ((managerStart_single_session exampleRegistry 1 "jazz" none none
      ("x", none, "X") 200).2.2.1 exampleSession (by decide)).1

/-- C9: RadioManager.stop pops and stops the session when one exists, but
the coroutine has no return statement, so it returns None on every path;
None is falsy, so stop_command never sends its confirmation even though a
session was just stopped. -/
theorem managerStop_returns_none :
    (∀ (m : SessionsMap) (chat : Int),
        (managerStop m chat).2.2 = PyValue.none) ∧
    (managerStop exampleRegistry 1).2.1 = some (sessionStop exampleSession) ∧
    lookupS (managerStop exampleRegistry 1).1 1 = none ∧
    stopCommandSendsConfirmation exampleRegistry 1 = false := by
  refine ⟨?_, by rfl, by rfl, by rfl⟩
  intro m chat
  unfold managerStop
  cases lookupS m chat <;> rfl

/-- C6: when the `bot.send_message` right after the quiz is flagged active
(quiz_service.py line 75) raises, the exception escapes before the
`try`/`finally`: no cleanup runs, the radio session's pause flag stays
set, and the quiz session stays active.  In contrast, a failure inside
the `try` block (ffmpeg producing no clip) is cleaned up: pause flag
cleared, session inactive. -/
theorem startQuiz_uncaught_skips_cleanup :
    ((startQuiz [] (some false) [] 1 envQuizRaise).2.2.2 =
        QuizOutcome.uncaught ∧
      (startQuiz [] (some false) [] 1 envQuizRaise).2.1 = some true ∧
      quizIsActive (startQuiz [] (some false) [] 1 envQuizRaise).1 1 =
        true) ∧
    ((startQuiz [] (some false) [] 1 envQuizFfmpegFail).2.2.2 =
        QuizOutcome.errorHandled ∧
      (startQuiz [] (some false) [] 1 envQuizFfmpegFail).2.1 = some false ∧
      quizIsActive (startQuiz [] (some false) [] 1 envQuizFfmpegFail).1 1 =
        false) :=
  ⟨⟨rfl, rfl, rfl⟩, ⟨rfl, rfl, rfl⟩⟩

end OldBot
